import Mathlib

set_option autoImplicit false

/-!
Verification of the Kyco controller core (`src/kyco/controller.py`).

The development shallowly embeds the data model and the operations of the
`Controller` class: events, the listener table (a Python dict from pattern
strings to lists of listener handles), the connection and switch registries,
the dispatcher loops for the `raw` and `app` buffers, `notify_listeners`,
`new_connection`, `send_to`, `remove_switch`, and the NApp manager
(`load_napp` / `unload_napp`).  Python dicts are modelled as association
lists with insertion-order semantics (update in place, new keys appended at
the end), matching CPython dict iteration order.  Listener callables are
modelled as `Nat` handles; where a claim needs listener behaviour, the
behaviour is supplied as an explicit semantics function.  Fallible Python
code (KeyError, ValueError, exceptions raised by listeners or by
`napp.start()`) is modelled by returning the state reached at the raise
point together with an `Option PyExn`.
-/

namespace Kyco

/-- Embeds `KycoEvent` (from `kyco.core.events`, used by `controller.py`):
only the `name` attribute is consulted by the dispatcher loops and by
`notify_listeners`. -/
structure KycoEvent where
  name : String
  deriving DecidableEq, Repr

/-- Python exceptions that the controller code can raise or propagate. -/
inductive PyExn
  | keyError
  | valueError
  | startError
  | switchOffline
  deriving DecidableEq, Repr

/-! ## Regular-expression matching, as used by `re.match` in `notify_listeners`

`notify_listeners` calls `re.match(event_regex, event.name)`, which anchors
the pattern at the beginning of the string and succeeds when the pattern
matches some prefix of it.  The engine below implements the fragment of
Python regex syntax exercised by the event patterns of this code base:
literal characters, backslash escapes, the any-character atom `.`, and the
Kleene star `a*` applied to a single atom (in particular `.*`).  Matching is
prefix matching, exactly as `re.match`.  The matcher carries an explicit
fuel argument so that it is structurally recursive; `ts.length + cs.length`
steps always suffice (each step shortens the terms or the input). -/

/-- A single-character regex atom: a literal character or `.` (any char). -/
inductive RAtom
  | ch (c : Char)
  | any
  deriving DecidableEq, Repr

/-- A regex term: a plain atom or a starred atom. -/
inductive RTerm
  | atom (a : RAtom)
  | star (a : RAtom)
  deriving DecidableEq, Repr

/-- Tokens produced by the pattern lexer: an atom, or a `*` marker that
applies to the previous atom. -/
inductive PatTok
  | tok (a : RAtom)
  | starTok
  deriving DecidableEq, Repr

/-- Does this atom match this character? -/
def amatch : RAtom → Char → Bool
  | RAtom.ch c, d => c == d
  | RAtom.any, _ => true

/-- Lexes a pattern string: a backslash escapes the next character into a
literal atom, `.` becomes the any-char atom, `*` becomes a star marker, and
every other character is a literal atom. -/
def lexPat : List Char → List PatTok
  | [] => []
  | c :: rest =>
      if c = '\\' then
        match rest with
        | [] => [PatTok.tok (RAtom.ch '\\')]
        | d :: rest2 => PatTok.tok (RAtom.ch d) :: lexPat rest2
      else
        (if c = '.' then PatTok.tok RAtom.any
         else if c = '*' then PatTok.starTok
         else PatTok.tok (RAtom.ch c)) :: lexPat rest

/-- Attaches each star marker to the atom immediately before it. -/
def starFold : List PatTok → List RTerm
  | [] => []
  | PatTok.tok a :: PatTok.starTok :: rest => RTerm.star a :: starFold rest
  | PatTok.tok a :: rest => RTerm.atom a :: starFold rest
  | PatTok.starTok :: rest => RTerm.atom (RAtom.ch '*') :: starFold rest

/-- Parses a pattern string into a list of regex terms. -/
def parsePat (cs : List Char) : List RTerm :=
  starFold (lexPat cs)

/-- Prefix matcher with explicit fuel: `consumeF fuel ts cs` decides whether
the term list `ts` matches some prefix of `cs`; a match is complete as soon
as the terms are exhausted (the semantics of `re.match`).  Every recursive
call shortens `ts` or `cs`, so fuel `ts.length + cs.length` suffices. -/
def consumeF : Nat → List RTerm → List Char → Bool
  | _, [], _ => true
  | _, RTerm.atom _ :: _, [] => false
  | 0, _ :: _, _ => false
  | fuel + 1, RTerm.atom a :: ts, c :: cs => amatch a c && consumeF fuel ts cs
  | fuel + 1, RTerm.star _ :: ts, [] => consumeF fuel ts []
  | fuel + 1, RTerm.star a :: ts, c :: cs =>
      consumeF fuel ts (c :: cs) || (amatch a c && consumeF fuel (RTerm.star a :: ts) cs)

/-- Embeds `re.match(pattern, s)` (as a Boolean): anchored at the beginning
of `s`, succeeding when the pattern matches some prefix of `s`. -/
def reMatch (pattern s : String) : Bool :=
  consumeF (pattern.toList.length + s.toList.length + 1)
    (parsePat pattern.toList) s.toList

/-- Does the character list `p` occur at the beginning of `cs`? -/
def beginsWith : List Char → List Char → Bool
  | [], _ => true
  | _ :: _, [] => false
  | p :: ps, c :: cs => p == c && beginsWith ps cs

/-- Characters that are special in Python regular expressions. -/
def isRegexMeta (c : Char) : Bool :=
  c == '.' || c == '^' || c == '$' || c == '*' || c == '+' || c == '?' ||
  c == '\x7b' || c == '\x7d' || c == '[' || c == ']' || c == '\\' ||
  c == '|' || c == '(' || c == ')'

/-- A pattern string is literal when it contains no regex metacharacter. -/
def isLiteralPat (p : String) : Bool :=
  p.toList.all (fun c => !(isRegexMeta c))

/-! ## Python dict operations

Association lists with CPython dict semantics: lookup reads the first
binding, update rewrites the first binding in place, a new key is appended
at the end (insertion order), and `pop` deletes the binding. -/

/-- Dict lookup: `t[k]` as an `Option`. -/
def dget {κ α : Type} [DecidableEq κ] : List (κ × α) → κ → Option α
  | [], _ => none
  | (k1, v1) :: rest, k => if k1 = k then some v1 else dget rest k

/-- Dict update `t[k] = v`: rewrites the binding in place when the key is
present, otherwise appends the new binding at the end. -/
def dset {κ α : Type} [DecidableEq κ] : List (κ × α) → κ → α → List (κ × α)
  | [], k, v => [(k, v)]
  | (k1, v1) :: rest, k, v =>
      if k1 = k then (k1, v) :: rest else (k1, v1) :: dset rest k v

/-- Dict deletion `t.pop(k)` (ignoring the returned value): removes the
binding of `k` when present. -/
def dpop {κ α : Type} [DecidableEq κ] : List (κ × α) → κ → List (κ × α)
  | [], _ => []
  | (k1, v1) :: rest, k => if k1 = k then rest else (k1, v1) :: dpop rest k

/-! ## The dispatcher loops

`Controller.raw_event_handler` and `Controller.app_event_handler` each loop
forever on `buffer.get()`.  The embedding runs a loop against the finite
sequence of events enqueued on its buffer and returns the list of events it
hands to `notify_listeners`, in order, together with a flag telling whether
the loop has terminated (`break`) or is still blocked on `get` after the
sequence is exhausted. -/

/-- The sentinel name tested by both handler loops in `controller.py`
(lines 180 and 259): note the code compares against `kyco/core.shutdown`. -/
def shutdownName : String := "kyco/core.shutdown"

/-- Embeds `Controller.raw_event_handler`: `get` an event, `break` if its
name is the shutdown sentinel (before notifying), otherwise notify the
listeners and loop.  Returns the events passed to `notify_listeners` and
whether the loop terminated. -/
def raw_event_handler : List KycoEvent → List KycoEvent × Bool
  | [] => ([], false)
  | e :: rest =>
      if e.name = shutdownName then ([], true)
      else
        let r := raw_event_handler rest
        (e :: r.1, r.2)

/-- Embeds `Controller.app_event_handler`: `get` an event, notify the
listeners, then `break` if its name is the shutdown sentinel (the check
comes after notifying, unlike the raw loop).  Returns the events passed to
`notify_listeners` and whether the loop terminated. -/
def app_event_handler : List KycoEvent → List KycoEvent × Bool
  | [] => ([], false)
  | e :: rest =>
      if e.name = shutdownName then ([e], true)
      else
        let r := app_event_handler rest
        (e :: r.1, r.2)

/-! ## notify_listeners as an invocation trace

`Controller.notify_listeners` loops over `self.events_listeners.items()`,
tests each pattern against the event name with `re.match`, and calls every
listener of a matching pattern with the event as its sole argument.  The
trace version below records the invocations `(listener, event)` in the
order they are performed; it is the behaviour when no listener raises. -/

/-- Embeds `Controller.notify_listeners` as the list of listener
invocations it performs, in order: for each table entry whose pattern
matches the event name, each listener of that entry is invoked with the
event as the sole argument, in registration order. -/
def notify_listeners (events_listeners : List (String × List Nat))
    (event : KycoEvent) : List (Nat × KycoEvent) :=
  events_listeners.flatMap (fun pl =>
    if reMatch pl.1 event.name then pl.2.map (fun l => (l, event)) else [])

/-- The invocation trace of a dispatcher handing a sequence of delivered
events to `notify_listeners`, one event at a time, in order. -/
def dispatch_sequence (events_listeners : List (String × List Nat))
    (events : List KycoEvent) : List (Nat × KycoEvent) :=
  events.flatMap (notify_listeners events_listeners)

/-! ## notify_listeners with listener behaviour

The source of `notify_listeners` has no try/except around the call
`listener(event)`: an exception raised by a listener propagates out of the
double loop, and out of the handler loop that called it, ending the
dispatcher thread.  To reason about this, listeners are given a semantics
`act` that transforms a state and may raise; the runner stops at the first
raised exception and returns the state reached so far together with the
exception, exactly as Python's propagation does. -/

/-- Runs the listeners of one table entry on the event, threading the state;
the first exception stops the iteration and propagates (there is no
try/except in the source). -/
def run_listeners {σ : Type} (act : Nat → KycoEvent → σ → σ × Option PyExn) :
    List Nat → KycoEvent → σ → σ × Option PyExn
  | [], _, s => (s, none)
  | l :: ls, e, s =>
      match act l e s with
      | (s2, some exn) => (s2, some exn)
      | (s2, none) => run_listeners act ls e s2

/-- Embeds `Controller.notify_listeners` with listener behaviour: iterates
the table, runs the listeners of every matching pattern, and lets the first
raised exception propagate out (no try/except in the source). -/
def notify_listeners_run {σ : Type}
    (act : Nat → KycoEvent → σ → σ × Option PyExn)
    (events_listeners : List (String × List Nat)) (event : KycoEvent)
    (s : σ) : σ × Option PyExn :=
  match events_listeners with
  | [] => (s, none)
  | (pat, ls) :: rest =>
      if reMatch pat event.name then
        match run_listeners act ls event s with
        | (s2, some exn) => (s2, some exn)
        | (s2, none) => notify_listeners_run act rest event s2
      else notify_listeners_run act rest event s

/-- How a dispatcher loop run on a finite event sequence ends: still
blocked on `get`, terminated by the shutdown sentinel, or terminated by an
exception a listener let escape through `notify_listeners`. -/
inductive LoopEnd
  | blocked
  | stopped
  | crashed (e : PyExn)
  deriving DecidableEq, Repr

/-- Embeds `Controller.raw_event_handler` with listener behaviour: an
exception escaping `notify_listeners` ends the dispatcher thread. -/
def raw_handler_run {σ : Type}
    (act : Nat → KycoEvent → σ → σ × Option PyExn)
    (events_listeners : List (String × List Nat)) :
    List KycoEvent → σ → σ × LoopEnd
  | [], s => (s, LoopEnd.blocked)
  | e :: rest, s =>
      if e.name = shutdownName then (s, LoopEnd.stopped)
      else
        match notify_listeners_run act events_listeners e s with
        | (s2, some exn) => (s2, LoopEnd.crashed exn)
        | (s2, none) => raw_handler_run act events_listeners rest s2

/-! ## Connections, switches and the controller registries -/

/-- Modelled from the spec (the class lives in `kyco/core/switch.py`, which
is not under `src/`): a Connection has an identity `(ip, port)`, an optional
`dpid` once the switch has identified itself, and a `tag` standing for the
Python object identity, so that two distinct Connection objects with the
same id can be told apart. -/
structure Connection where
  ip : String
  port : Nat
  dpid : Option String
  tag : Nat
  deriving DecidableEq, Repr

/-- The `(ip, port)` identity of a connection. -/
def Connection.id (c : Connection) : String × Nat :=
  (c.ip, c.port)

/-- Lifecycle state of a connection, per the spec data model. -/
inductive ConnState
  | NEW
  | HANDSHAKING
  | ESTABLISHED
  | CLOSING
  | CLOSED
  deriving DecidableEq, Repr

/-- Modelled from the spec (`kyco/core/switch.py` is not under `src/`): a
Switch carries its dpid and the lifecycle state of its current
connection. -/
structure Switch where
  dpid : String
  conn_state : ConnState
  deriving DecidableEq, Repr

/-- Modelled from the spec (`kyco/core/switch.py` is not under `src/`):
`switch.disconnect()` closes the switch's current connection. -/
def Switch.disconnect (sw : Switch) : Switch :=
  { sw with conn_state := ConnState.CLOSED }

/-- Modelled from the spec (`kyco/core/switch.py` is not under `src/`):
`switch.send(message)` writes via the switch's current connection and
raises `KycoSwitchOfflineException` when it is not ESTABLISHED. -/
def Switch.send (sw : Switch) (message : List Nat) : Except PyExn (List Nat) :=
  if sw.conn_state = ConnState.ESTABLISHED then Except.ok message
  else Except.error PyExn.switchOffline

/-- A destination accepted by `Controller.send_to`: a `(ip, port)` tuple or
a dpid string (the source dispatches on `isinstance(destination, tuple)`). -/
inductive Destination
  | connId (cid : String × Nat)
  | dpid (d : String)
  deriving DecidableEq, Repr

/-- Embeds a loaded NApp as `Controller.load_napp` and
`Controller.unload_napp` see it: its declared `_listeners` dict (pattern to
list of listener handles) and whether its `start()` raises. -/
structure NApp where
  listeners : List (String × List Nat)
  startFails : Bool
  deriving DecidableEq, Repr

/-- Embeds the `Controller` state: the `connections` registry keyed by
`(ip, port)`, the `switches` registry keyed by dpid, the
`events_listeners` table, the `napps` registry, and a log of the socket
writes performed by `send_to` (so that "no bytes were written" is a
statement about the state). -/
structure Controller where
  connections : List ((String × Nat) × Connection)
  switches : List (String × Switch)
  events_listeners : List (String × List Nat)
  napps : List (String × NApp)
  writes : List (Destination × List Nat)
  deriving DecidableEq, Repr

/-- Embeds the registries set up by `Controller.__init__`: empty
connections, switches and napps, and an `events_listeners` table holding
the single built-in entry mapping the pattern `kyco/core.connection.new` to
the `new_connection` method (listener handle 0). -/
def initialController : Controller :=
  { connections := []
    switches := []
    events_listeners := [("kyco/core.connection.new", [0])]
    napps := []
    writes := [] }

/-- Embeds `Controller.get_switch_by_dpid`: dict lookup, `None` on
KeyError.  The argument may be `None` (a connection without a dpid);
`self.switches[None]` raises KeyError, giving `None`. -/
def get_switch_by_dpid (ctl : Controller) (dpid : Option String) : Option Switch :=
  match dpid with
  | none => none
  | some d => dget ctl.switches d

/-- Embeds `Controller.get_connection_by_id`: dict lookup, `None` on
KeyError. -/
def get_connection_by_id (ctl : Controller) (cid : String × Nat) : Option Connection :=
  dget ctl.connections cid

/-- Embeds `Controller.remove_connection`: pops the connection and returns
`True`; returns `False` on KeyError. -/
def remove_connection (ctl : Controller) (cid : String × Nat) : Controller × Bool :=
  match dget ctl.connections cid with
  | none => (ctl, false)
  | some _ => ({ ctl with connections := dpop ctl.connections cid }, true)

/-- Embeds `Controller.remove_switch`: on KeyError it returns `False`; when
the switch is present it pops it and then falls off the end of the
function, so Python returns `None` (there is no `return True`).  The
returned `Option Bool` is the Python return value, with `Option.none`
standing for Python's `None`. -/
def remove_switch (ctl : Controller) (dpid : String) : Controller × Option Bool :=
  match dget ctl.switches dpid with
  | none => (ctl, some false)
  | some _ => ({ ctl with switches := dpop ctl.switches dpid }, none)

/-- Embeds the event consumed by `Controller.new_connection`: its name and
the Connection stored at `event.content['connection']`. -/
structure ConnectionEvent where
  name : String
  connection : Connection
  deriving DecidableEq, Repr

/-- Embeds `Controller.new_connection`: reads the connection from the event
content; removes the old connection registered under the same id, if any;
disconnects the switch registered under the connection's dpid, if any; and
stores the new connection in the registry under its id. -/
def new_connection (ctl : Controller) (event : ConnectionEvent) : Controller :=
  let connection := event.connection
  let ctl1 :=
    if (get_connection_by_id ctl connection.id).isSome then
      (remove_connection ctl connection.id).1
    else ctl
  let ctl2 :=
    match connection.dpid with
    | none => ctl1
    | some d =>
        match dget ctl1.switches d with
        | none => ctl1
        | some sw => { ctl1 with switches := dset ctl1.switches d sw.disconnect }
  { ctl2 with connections := dset ctl2.connections connection.id connection }

/-- Embeds `Controller.send_to`: a tuple destination goes through
`self.connections[destination]` (KeyError when absent, propagated — the
except clause only catches socket errors and re-raises), a string
destination goes through `self.switches[destination].send(message)`
(KeyError when absent; `KycoSwitchOfflineException` re-raised when the
switch's connection is not ESTABLISHED).  A successful socket write is
recorded in the `writes` log. -/
def send_to (ctl : Controller) (destination : Destination) (message : List Nat) :
    Controller × Option PyExn :=
  match destination with
  | Destination.connId cid =>
      match dget ctl.connections cid with
      | none => (ctl, some PyExn.keyError)
      | some _ =>
          ({ ctl with writes := ctl.writes ++ [(destination, message)] }, none)
  | Destination.dpid d =>
      match dget ctl.switches d with
      | none => (ctl, some PyExn.keyError)
      | some sw =>
          match sw.send message with
          | Except.error e => (ctl, some e)
          | Except.ok _ =>
              ({ ctl with writes := ctl.writes ++ [(destination, message)] }, none)

/-! ## The NApp manager -/

/-- Embeds the listener-registration loop of `Controller.load_napp`: for
each `(event_type, listeners)` of the napp, create the table entry as `[]`
if the pattern is absent, then extend it with the napp's listeners. -/
def registerListeners : List (String × List Nat) → List (String × List Nat) →
    List (String × List Nat)
  | t, [] => t
  | t, (p, ls) :: rest =>
      let t1 := if (dget t p).isSome then t else dset t p []
      let t2 := dset t1 p ((dget t1 p).getD [] ++ ls)
      registerListeners t2 rest

/-- Embeds Python `list.remove`: deletes the first occurrence, `none`
standing for the ValueError raised when the element is absent. -/
def listRemove : List Nat → Nat → Option (List Nat)
  | [], _ => none
  | x :: xs, l =>
      if x = l then some xs else (listRemove xs l).map (fun r => x :: r)

/-- Embeds the inner loop of `Controller.unload_napp` for one pattern:
`self.events_listeners[event_type].remove(listener)` for each listener
(KeyError when the pattern is absent, ValueError when the listener is
absent); on an exception the state reached so far is returned with it. -/
def removeSeq : List (String × List Nat) → String → List Nat →
    List (String × List Nat) × Option PyExn
  | t, _, [] => (t, none)
  | t, p, l :: ls =>
      match dget t p with
      | none => (t, some PyExn.keyError)
      | some cur =>
          match listRemove cur l with
          | none => (t, some PyExn.valueError)
          | some cur2 => removeSeq (dset t p cur2) p ls

/-- Embeds the listener-removal loop of `Controller.unload_napp`: for each
`(event_type, listeners)` of the napp, remove each listener from the
pattern's entry, then pop the pattern when its list has become empty (the
length check itself raises KeyError when the pattern is absent). -/
def removeNappListeners : List (String × List Nat) → List (String × List Nat) →
    List (String × List Nat) × Option PyExn
  | t, [] => (t, none)
  | t, (p, ls) :: rest =>
      match removeSeq t p ls with
      | (t1, some e) => (t1, some e)
      | (t1, none) =>
          match dget t1 p with
          | none => (t1, some PyExn.keyError)
          | some cur =>
              removeNappListeners (if cur.length = 0 then dpop t1 p else t1) rest

/-- Embeds `Controller.load_napp`: the module is loaded and instantiated
(`inst` is the outcome of `module.load_module().Main(controller=self)`; a
raise there leaves the state untouched); then the napp is stored in the
registry, its listeners are registered, and `napp.start()` runs — a raise
in `start()` happens after registration and nothing is rolled back. -/
def load_napp (st : Controller) (napp_name : String) (inst : Except PyExn NApp) :
    Controller × Option PyExn :=
  match inst with
  | Except.error e => (st, some e)
  | Except.ok napp =>
      let st1 := { st with napps := dset st.napps napp_name napp }
      let st2 := { st1 with
        events_listeners := registerListeners st1.events_listeners napp.listeners }
      if napp.startFails then (st2, some PyExn.startError) else (st2, none)

/-- Embeds `Controller.unload_napp`: `self.napps.pop(napp_name)` first
(KeyError when absent, before anything else happens), then the napp's
`shutdown()` (which touches no controller registry in this model), then
the listener-removal loop. -/
def unload_napp (st : Controller) (napp_name : String) : Controller × Option PyExn :=
  match dget st.napps napp_name with
  | none => (st, some PyExn.keyError)
  | some napp =>
      let st1 := { st with napps := dpop st.napps napp_name }
      match removeNappListeners st1.events_listeners napp.listeners with
      | (t, e) => ({ st1 with events_listeners := t }, e)

/-! ## Sample states and listener behaviours used by concrete scenarios -/

/-- Listener behaviour for the exception-isolation scenario: listener 1
raises, every other listener records `(listener, event)` in the state. -/
def demoAct (l : Nat) (e : KycoEvent) (s : List (Nat × KycoEvent)) :
    List (Nat × KycoEvent) × Option PyExn :=
  if l = 1 then (s, some PyExn.valueError) else (s ++ [(l, e)], none)

/-- A controller whose switches registry holds one switch with dpid 0x01. -/
def oneSwitchController : Controller :=
  { initialController with
    switches := [("0x01", { dpid := "0x01", conn_state := ConnState.ESTABLISHED })] }

/-- A controller whose listener table already maps pattern `p` to the
listeners 1 and 2 (listener 1 registered by another party). -/
def preloadedController : Controller :=
  { initialController with events_listeners := [("p", [1, 2])] }

/-- A napp declaring listener 1 for pattern `p`: the same listener handle
that `preloadedController` already holds under `p`. -/
def sharedListenerNapp : NApp :=
  { listeners := [("p", [1])], startFails := false }

/-- A napp declaring fresh listeners for two patterns. -/
def demoNapp : NApp :=
  { listeners := [("p", [5]), ("q", [6, 7])], startFails := false }

/-- The first connection of the replacement scenario. -/
def connA : Connection :=
  { ip := "10.0.0.1", port := 6633, dpid := none, tag := 1 }

/-- A second, distinct connection object with the same `(ip, port)` id. -/
def connB : Connection :=
  { ip := "10.0.0.1", port := 6633, dpid := none, tag := 2 }

/-! ## Dict lemmas -/

@[simp]
theorem dget_dset_self {κ α : Type} [DecidableEq κ] (t : List (κ × α)) (k : κ) (v : α) :
    dget (dset t k v) k = some v := by
  induction t with
  | nil => simp [dget, dset]
  | cons p rest ih =>
      by_cases h : p.1 = k <;> simp [dget, dset, h, ih]

theorem dget_dset_ne {κ α : Type} [DecidableEq κ] (t : List (κ × α)) {k1 k2 : κ} (v : α)
    (h : k1 ≠ k2) : dget (dset t k1 v) k2 = dget t k2 := by
  induction t with
  | nil => simp [dget, dset, h]
  | cons p rest ih =>
      by_cases hp : p.1 = k1
      · simp [dget, dset, hp, h]
      · simp [dget, dset, hp, ih]

theorem dset_dset_self {κ α : Type} [DecidableEq κ] (t : List (κ × α)) (k : κ) (v w : α) :
    dset (dset t k v) k w = dset t k w := by
  induction t with
  | nil => simp [dset]
  | cons p rest ih =>
      by_cases h : p.1 = k <;> simp [dset, h, ih]

theorem dset_self_eq {κ α : Type} [DecidableEq κ] {t : List (κ × α)} {k : κ} {v : α}
    (h : dget t k = some v) : dset t k v = t := by
  induction t with
  | nil => simp [dget] at h
  | cons p rest ih =>
      obtain ⟨pk, pv⟩ := p
      by_cases hp : pk = k
      · subst hp
        simp [dget] at h
        simp [dset, h]
      · simp [dget, hp] at h
        simp [dset, hp, ih h]

theorem dget_eq_none_iff {κ α : Type} [DecidableEq κ] {t : List (κ × α)} {k : κ} :
    dget t k = none ↔ ∀ p ∈ t, p.1 ≠ k := by
  induction t with
  | nil => simp [dget]
  | cons p rest ih =>
      by_cases hp : p.1 = k <;> simp [dget, hp, ih]

theorem dset_absent {κ α : Type} [DecidableEq κ] {t : List (κ × α)} {k : κ} (v : α)
    (h : dget t k = none) : dset t k v = t ++ [(k, v)] := by
  induction t with
  | nil => simp [dset]
  | cons p rest ih =>
      by_cases hp : p.1 = k
      · simp [dget, hp] at h
      · simp [dget, hp] at h
        simp [dset, hp, ih h]

theorem dpop_absent_append {κ α : Type} [DecidableEq κ] {t : List (κ × α)} {k : κ} (v : α)
    (h : dget t k = none) : dpop (t ++ [(k, v)]) k = t := by
  induction t with
  | nil => simp [dpop]
  | cons p rest ih =>
      by_cases hp : p.1 = k
      · simp [dget, hp] at h
      · simp [dget, hp] at h
        simp [dpop, hp, ih h]

theorem dget_dpop_ne {κ α : Type} [DecidableEq κ] (t : List (κ × α)) {k1 k2 : κ}
    (h : k1 ≠ k2) : dget (dpop t k1) k2 = dget t k2 := by
  induction t with
  | nil => simp [dpop]
  | cons p rest ih =>
      by_cases hp : p.1 = k1
      · simp [dpop, hp, dget, h]
      · simp [dpop, dget, hp, ih]

theorem dget_dpop_self {κ α : Type} [DecidableEq κ] {t : List (κ × α)} {k : κ}
    (h : (t.map Prod.fst).Nodup) : dget (dpop t k) k = none := by
  induction t with
  | nil => simp [dpop, dget]
  | cons p rest ih =>
      simp only [List.map_cons, List.nodup_cons] at h
      by_cases hp : p.1 = k
      · rw [dget_eq_none_iff]
        intro q hq
        subst hp
        simp [dpop, if_pos rfl] at hq
        exact fun hqk => h.1 (hqk ▸ List.mem_map_of_mem Prod.fst hq)
      · simp [dpop, dget, hp, ih h.2]

theorem dget_isSome_dset {κ α : Type} [DecidableEq κ] (t : List (κ × α)) (k1 k2 : κ) (v : α)
    (h : (dget t k1).isSome) : (dget (dset t k2 v) k1).isSome := by
  by_cases hk : k2 = k1
  · subst hk; simp
  · rwa [dget_dset_ne t v hk]

theorem dset_comm {κ α : Type} [DecidableEq κ] {t : List (κ × α)} {k1 k2 : κ} (v w : α)
    (hne : k1 ≠ k2) (h : (dget t k1).isSome) :
    dset (dset t k2 w) k1 v = dset (dset t k1 v) k2 w := by
  have hk21 : ¬ (k2 = k1) := fun hh => hne hh.symm
  induction t with
  | nil => simp [dget] at h
  | cons p rest ih =>
      obtain ⟨pk, pv⟩ := p
      by_cases hp2 : pk = k2
      · subst hp2
        simp [dset, hk21, hne]
      · by_cases hp1 : pk = k1
        · subst hp1
          simp [dset, hk21, hne, hp2]
        · simp only [dget, if_neg hp1] at h
          simp [dset, hp1, hp2, ih h]

theorem dpop_dset_ne {κ α : Type} [DecidableEq κ] {t : List (κ × α)} {k1 k2 : κ} (w : α)
    (hne : k1 ≠ k2) (h : (dget t k1).isSome) :
    dpop (dset t k2 w) k1 = dset (dpop t k1) k2 w := by
  have hk21 : ¬ (k2 = k1) := fun hh => hne hh.symm
  induction t with
  | nil => simp [dget] at h
  | cons p rest ih =>
      obtain ⟨pk, pv⟩ := p
      by_cases hp2 : pk = k2
      · subst hp2
        simp [dset, dpop, hk21, hne]
      · by_cases hp1 : pk = k1
        · subst hp1
          simp [dset, dpop, hk21, hne, hp2]
        · simp only [dget, if_neg hp1] at h
          simp [dset, dpop, hp1, hp2, ih h]

theorem filter_eq_nil_of_dget_none {κ α : Type} [DecidableEq κ] {t : List (κ × α)} {k : κ}
    (h : dget t k = none) : t.filter (fun p => p.1 = k) = [] := by
  rw [dget_eq_none_iff] at h
  simp only [List.filter_eq_nil_iff]
  intro p hp
  simpa using h p hp

/-! ## Dispatcher-loop lemmas -/

theorem raw_event_handler_sentinel (pre post : List KycoEvent) (e : KycoEvent)
    (hpre : ∀ x ∈ pre, x.name ≠ shutdownName) (he : e.name = shutdownName) :
    raw_event_handler (pre ++ e :: post) = (pre, true) := by
  induction pre with
  | nil => simp [raw_event_handler, he]
  | cons x xs ih =>
      have hx : x.name ≠ shutdownName := hpre x (List.mem_cons_self x xs)
      have hxs : ∀ y ∈ xs, y.name ≠ shutdownName :=
        fun y hy => hpre y (List.mem_cons_of_mem x hy)
      simp [raw_event_handler, hx, ih hxs]

theorem app_event_handler_sentinel (pre post : List KycoEvent) (e : KycoEvent)
    (hpre : ∀ x ∈ pre, x.name ≠ shutdownName) (he : e.name = shutdownName) :
    app_event_handler (pre ++ e :: post) = (pre ++ [e], true) := by
  induction pre with
  | nil => simp [app_event_handler, he]
  | cons x xs ih =>
      have hx : x.name ≠ shutdownName := hpre x (List.mem_cons_self x xs)
      have hxs : ∀ y ∈ xs, y.name ≠ shutdownName :=
        fun y hy => hpre y (List.mem_cons_of_mem x hy)
      simp [app_event_handler, hx, ih hxs]

/-! ## Claims C1 and C3: dispatcher shutdown and raw/app loop comparison -/

/-- C1 counterexample: the sentinel actually tested by both handler loops in
the source is the string `kyco/core.shutdown` (lines 180 and 259), not
`kytos/core.shutdown` as the claim states.  Running the raw loop on the
claim's scenario — events named `a.b`, `kytos/core.shutdown`, `a.b` with a
listener registered for `a.b` — the loop does not terminate (it ends up
blocked on the empty buffer) and the listener is invoked twice, not
once. -/
theorem dispatcher_shutdown_counterexample :
    (raw_event_handler
        [KycoEvent.mk "a.b", KycoEvent.mk "kytos/core.shutdown", KycoEvent.mk "a.b"]).2
      = false ∧
    (dispatch_sequence [("a.b", [0])]
        (raw_event_handler
          [KycoEvent.mk "a.b", KycoEvent.mk "kytos/core.shutdown", KycoEvent.mk "a.b"]).1).length
      = 2 := by
  decide

/-- C1 (amended): the shutdown sentinel the dispatcher loops terminate on is
the event name `kyco/core.shutdown`.  For every finite sequence of enqueued
events, each loop (raw and app) terminates upon dequeuing the first event
so named, and no event enqueued after that sentinel is delivered to
listeners: the raw loop delivers exactly the events before the sentinel,
the app loop those plus the sentinel itself.  In particular, with events
named `a.b`, `kyco/core.shutdown`, `a.b` enqueued on raw and a listener
counting invocations of `a.b`, the counter ends at exactly 1 and the loop
has terminated. -/
theorem dispatcher_shutdown (pre post : List KycoEvent) (e : KycoEvent)
    (hpre : ∀ x ∈ pre, x.name ≠ shutdownName) (he : e.name = shutdownName) :
    raw_event_handler (pre ++ e :: post) = (pre, true) ∧
    app_event_handler (pre ++ e :: post) = (pre ++ [e], true) ∧
    (dispatch_sequence [("a.b", [0])]
        (raw_event_handler
          [KycoEvent.mk "a.b", KycoEvent.mk "kyco/core.shutdown", KycoEvent.mk "a.b"]).1).length
      = 1 ∧
    (raw_event_handler
        [KycoEvent.mk "a.b", KycoEvent.mk "kyco/core.shutdown", KycoEvent.mk "a.b"]).2
      = true :=
  ⟨raw_event_handler_sentinel pre post e hpre he,
   app_event_handler_sentinel pre post e hpre he,
   by decide, by decide⟩

/-- Witness for C1 at the claim's concrete scenario. -/
theorem dispatcher_shutdown_witness :
    raw_event_handler
        [KycoEvent.mk "a.b", KycoEvent.mk "kyco/core.shutdown", KycoEvent.mk "a.b"]
      = ([KycoEvent.mk "a.b"], true) ∧
    app_event_handler
        [KycoEvent.mk "a.b", KycoEvent.mk "kyco/core.shutdown", KycoEvent.mk "a.b"]
      = ([KycoEvent.mk "a.b", KycoEvent.mk "kyco/core.shutdown"], true) := by
  have h := dispatcher_shutdown [KycoEvent.mk "a.b"] [KycoEvent.mk "a.b"]
    (KycoEvent.mk "kyco/core.shutdown") (by decide) (by decide)
  exact ⟨h.1, h.2.1⟩

/-- C3 counterexample: the two loops do not deliver the same events.  The
raw loop checks the sentinel before notifying and the app loop after, so on
the one-event sequence holding just the sentinel the raw loop delivers
nothing while the app loop delivers the sentinel event to listeners. -/
theorem raw_app_loops_counterexample :
    (raw_event_handler [KycoEvent.mk "kyco/core.shutdown"]).1 ≠
    (app_event_handler [KycoEvent.mk "kyco/core.shutdown"]).1 := by
  decide

/-- C3 (amended): the raw and app dispatcher loops agree on termination and
deliver the same events, except that the app loop also delivers the first
shutdown sentinel itself to listeners (the raw loop breaks before
`notify_listeners`, the app loop after), so the app loop's delivery list is
the raw loop's followed by the first sentinel of the sequence, if any. -/
theorem raw_app_loops_equivalence (events : List KycoEvent) :
    (raw_event_handler events).2 = (app_event_handler events).2 ∧
    (app_event_handler events).1 =
      (raw_event_handler events).1 ++
        (events.dropWhile (fun e => e.name != shutdownName)).take 1 := by
  induction events with
  | nil => simp [raw_event_handler, app_event_handler]
  | cons e rest ih =>
      by_cases he : e.name = shutdownName
      · simp [raw_event_handler, app_event_handler, he, List.dropWhile]
      · have hb : (e.name != shutdownName) = true := by simp [he]
        simp [raw_event_handler, app_event_handler, he, List.dropWhile, hb, ih.1, ih.2]

/-! ## Claim C2: listener exceptions are not isolated -/

/-- C2: the claim is contradicted by the source.  `notify_listeners` has no
try/except around `listener(event)`, so with listeners 1 (raises) and 2
(records) registered for pattern `x` and an event named `x`, listener 1's
exception propagates out of `notify_listeners` before listener 2 runs:
listener 2 records nothing, and the dispatcher loop ends as crashed instead
of delivering the next event. -/
theorem listener_exception_not_isolated :
    notify_listeners_run demoAct [("x", [1, 2])] (KycoEvent.mk "x") []
      = ([], some PyExn.valueError) ∧
    raw_handler_run demoAct [("x", [1, 2])]
        [KycoEvent.mk "x", KycoEvent.mk "x"] []
      = ([], LoopEnd.crashed PyExn.valueError) ∧
    notify_listeners_run demoAct [("x", [2, 3])] (KycoEvent.mk "x") []
      = ([(2, KycoEvent.mk "x"), (3, KycoEvent.mk "x")], none) := by
  decide

/-! ## Claim C4: remove_switch returns None on success -/

/-- C4: the claim is contradicted by the source.  `remove_switch` has no
`return True` after the successful `pop` (unlike `remove_connection`), so
when the dpid is present the switch is removed but Python returns `None`
(here `Option.none`), not `True`.  The absent case does return `False` with
the registry unchanged. -/
theorem remove_switch_returns_none :
    (remove_switch oneSwitchController "0x01").2 = Option.none ∧
    (remove_switch oneSwitchController "0x01").2 ≠ some true ∧
    dget (remove_switch oneSwitchController "0x01").1.switches "0x01" = Option.none ∧
    remove_switch oneSwitchController "0xff" = (oneSwitchController, some false) := by
  decide

/-! ## Claim C7: load_napp start failure leaves the listeners registered -/

/-- C7: the claim is contradicted by the source.  `load_napp` registers the
napp's listeners only after successful instantiation (so an instantiation
failure leaves everything unchanged — first conjunct), but there is no
try/except around `napp.start()` and no compensating unsubscribe: when
`start()` raises, the napp's listeners stay in the table and the napp stays
in the registry. -/
theorem load_napp_start_failure_keeps_listeners :
    load_napp initialController "author/napp" (Except.error PyExn.valueError)
      = (initialController, some PyExn.valueError) ∧
    (load_napp initialController "author/napp"
        (Except.ok { listeners := [("p", [5])], startFails := true })).2
      = some PyExn.startError ∧
    (load_napp initialController "author/napp"
        (Except.ok { listeners := [("p", [5])], startFails := true })).1.events_listeners
      = [("kyco/core.connection.new", [0]), ("p", [5])] ∧
    (load_napp initialController "author/napp"
        (Except.ok { listeners := [("p", [5])], startFails := true })).1.events_listeners
      ≠ initialController.events_listeners := by
  decide

/-! ## Claim C8: send_to with an unknown destination -/

/-- C8: for a dpid not in the switches registry, and likewise for an
`(ip, port)` tuple not in the connections registry, `send_to` fails with
the KeyError raised by the registry lookup (the unknown-destination
failure, reported to the caller since the except clauses only re-raise) and
the controller state — in particular its log of socket writes — is
unchanged: no bytes are written to any connection. -/
theorem send_to_unknown_destination (ctl : Controller) (d : String)
    (cid : String × Nat) (message : List Nat)
    (hd : dget ctl.switches d = none) (hc : dget ctl.connections cid = none) :
    send_to ctl (Destination.dpid d) message = (ctl, some PyExn.keyError) ∧
    send_to ctl (Destination.connId cid) message = (ctl, some PyExn.keyError) ∧
    (send_to ctl (Destination.dpid d) message).1.writes = ctl.writes ∧
    (send_to ctl (Destination.connId cid) message).1.writes = ctl.writes := by
  refine ⟨?_, ?_, ?_, ?_⟩ <;> simp [send_to, hd, hc]

/-- Witness for C8 at the claim's scenario: `send_to("0xff", bytes)` with no
such switch. -/
theorem send_to_unknown_destination_witness :
    send_to initialController (Destination.dpid "0xff") [1, 2, 3]
      = (initialController, some PyExn.keyError) :=
  (send_to_unknown_destination initialController "0xff" ("10.0.0.1", 6633) [1, 2, 3]
    (by decide) (by decide)).1

/-! ## Claim C10: unload_napp of an absent napp -/

/-- C10: for a napp name not in the registry, `unload_napp` raises the
KeyError of `self.napps.pop(napp_name)` — the first statement of the method
— leaving the napp registry and the listener table (the whole controller
state) unchanged. -/
theorem unload_absent_napp_keyerror (st : Controller) (napp_name : String)
    (h : dget st.napps napp_name = none) :
    unload_napp st napp_name = (st, some PyExn.keyError) := by
  simp [unload_napp, h]

/-- Witness for C10 on the freshly initialised controller. -/
theorem unload_absent_napp_keyerror_witness :
    unload_napp initialController "author/napp"
      = (initialController, some PyExn.keyError) :=
  unload_absent_napp_keyerror initialController "author/napp" (by decide)

/-! ## Claim C5: anchored pattern matching in notify_listeners -/

theorem lexPat_literal (cs : List Char) (h : ∀ c ∈ cs, isRegexMeta c = false) :
    lexPat cs = cs.map (fun c => PatTok.tok (RAtom.ch c)) := by
  induction cs with
  | nil => rfl
  | cons c rest ih =>
      have hc := h c (List.mem_cons_self c rest)
      have h1 : ¬ c = '\\' := by intro hh; rw [hh] at hc; exact absurd hc (by decide)
      have h2 : ¬ c = '.' := by intro hh; rw [hh] at hc; exact absurd hc (by decide)
      have h3 : ¬ c = '*' := by intro hh; rw [hh] at hc; exact absurd hc (by decide)
      rw [lexPat.eq_def]
      simp [h1, h2, h3, ih (fun x hx => h x (List.mem_cons_of_mem c hx))]

theorem starFold_tok (cs : List Char) :
    starFold (cs.map (fun c => PatTok.tok (RAtom.ch c))) =
      cs.map (fun c => RTerm.atom (RAtom.ch c)) := by
  induction cs with
  | nil => rfl
  | cons c rest ih =>
      cases rest with
      | nil => rfl
      | cons d rest2 =>
          show RTerm.atom (RAtom.ch c) ::
              starFold ((d :: rest2).map (fun x => PatTok.tok (RAtom.ch x))) = _
          rw [ih]
          rfl

theorem consumeF_atoms (ps : List Char) :
    ∀ (fuel : Nat) (cs : List Char), ps.length ≤ fuel →
      consumeF fuel (ps.map (fun c => RTerm.atom (RAtom.ch c))) cs = beginsWith ps cs := by
  induction ps with
  | nil =>
      intro fuel cs _
      cases fuel <;> rfl
  | cons p ps ih =>
      intro fuel cs hf
      cases cs with
      | nil => cases fuel <;> rfl
      | cons c cs2 =>
          cases fuel with
          | zero => exact absurd hf (by simp)
          | succ f =>
              have : ps.length ≤ f := by
                simpa [Nat.succ_le_succ_iff] using hf
              simp [consumeF, beginsWith, amatch, ih f cs2 this]

theorem reMatch_literal (p s : String) (hp : isLiteralPat p = true) :
    reMatch p s = beginsWith p.toList s.toList := by
  have hmeta : ∀ c ∈ p.toList, isRegexMeta c = false := by
    intro c hc
    have := (List.all_eq_true.mp hp) c hc
    simpa using this
  unfold reMatch parsePat
  rw [lexPat_literal _ hmeta, starFold_tok, consumeF_atoms]
  omega

/-- C5: `notify_listeners` matches each pattern against the event name with
`re.match`, anchored at the beginning — a pattern that is a pure literal
(no regex metacharacter) matches exactly those events whose name begins
with that literal — and invokes each listener of a matching pattern in
registration order with the event as the sole argument; a listener
subscribed to the pattern `kytos/core\.connection\..*` receives events
named `kytos/core.connection.new` and `kytos/core.connection.lost`, in that
order, and does not receive an event named `kytos/core.other`. -/
theorem notify_listeners_pattern_matching (p : String) (hp : isLiteralPat p = true) :
    (∀ s : String, reMatch p s = beginsWith p.toList s.toList) ∧
    (∀ (pat : String) (ls : List Nat) (e : KycoEvent), reMatch pat e.name = true →
        notify_listeners [(pat, ls)] e = ls.map (fun l => (l, e))) ∧
    (∀ (pat : String) (ls : List Nat) (e : KycoEvent), reMatch pat e.name = false →
        notify_listeners [(pat, ls)] e = []) ∧
    dispatch_sequence [("kytos/core\\.connection\\..*", [7])]
        [KycoEvent.mk "kytos/core.connection.new",
         KycoEvent.mk "kytos/core.connection.lost",
         KycoEvent.mk "kytos/core.other"]
      = [(7, KycoEvent.mk "kytos/core.connection.new"),
         (7, KycoEvent.mk "kytos/core.connection.lost")] :=
  ⟨fun s => reMatch_literal p s hp,
   fun pat ls e h => by simp [notify_listeners, h],
   fun pat ls e h => by simp [notify_listeners, h],
   by decide⟩

/-- Witness for C5 at the literal pattern `kytos/core`. -/
theorem notify_listeners_pattern_matching_witness :
    reMatch "kytos/core" "kytos/core.connection.new"
      = beginsWith "kytos/core".toList "kytos/core.connection.new".toList :=
  (notify_listeners_pattern_matching "kytos/core" (by decide)).1 "kytos/core.connection.new"

/-! ## Claim C6: new_connection replaces the registered connection -/

theorem new_connection_connections (ctl : Controller) (event : ConnectionEvent) :
    (new_connection ctl event).connections =
      dset (if (dget ctl.connections event.connection.id).isSome then
              dpop ctl.connections event.connection.id
            else ctl.connections)
        event.connection.id event.connection := by
  unfold new_connection get_connection_by_id remove_connection
  cases hg : dget ctl.connections event.connection.id with
  | none =>
      cases hdp : event.connection.dpid with
      | none => simp [hg, hdp]
      | some d =>
          cases hsw : dget ctl.switches d with
          | none => simp [hg, hdp, hsw]
          | some sw => simp [hg, hdp, hsw]
  | some v =>
      cases hdp : event.connection.dpid with
      | none => simp [hg, hdp]
      | some d =>
          cases hsw : dget ctl.switches d with
          | none => simp [hg, hdp, hsw]
          | some sw => simp [hg, hdp, hsw]

theorem new_connection_switches (ctl : Controller) (event : ConnectionEvent)
    (d : String) (sw : Switch)
    (hdp : event.connection.dpid = some d) (hsw : dget ctl.switches d = some sw) :
    (new_connection ctl event).switches = dset ctl.switches d sw.disconnect := by
  unfold new_connection get_connection_by_id remove_connection
  cases hg : dget ctl.connections event.connection.id with
  | none => simp [hg, hdp, hsw]
  | some v => simp [hg, hdp, hsw]

/-- C6: after `new_connection` processes an event carrying connection `c`,
the connections registry maps `c.id` to exactly `c` — the registry holds
exactly one entry for `c.id`, so any previously registered Connection at
that id is gone — and if a Switch was registered under `c.dpid`, the
registry now holds that switch disconnected.  Applied twice with the same
id and distinct Connection objects, the registry therefore refers to the
second object. -/
theorem new_connection_replaces (ctl : Controller) (event : ConnectionEvent)
    (hnodup : (ctl.connections.map Prod.fst).Nodup) :
    dget (new_connection ctl event).connections event.connection.id
      = some event.connection ∧
    ((new_connection ctl event).connections.filter
        (fun p => p.1 = event.connection.id)).map Prod.snd = [event.connection] ∧
    ∀ (d : String) (sw : Switch), event.connection.dpid = some d →
      dget ctl.switches d = some sw →
      dget (new_connection ctl event).switches d = some sw.disconnect := by
  have hconn := new_connection_connections ctl event
  have hnone : dget (if (dget ctl.connections event.connection.id).isSome then
      dpop ctl.connections event.connection.id else ctl.connections)
      event.connection.id = none := by
    cases hg : dget ctl.connections event.connection.id with
    | none => simp [hg]
    | some v => simp [hg, dget_dpop_self hnodup]
  refine ⟨?_, ?_, ?_⟩
  · rw [hconn, dget_dset_self]
  · rw [hconn, dset_absent _ hnone, List.filter_append,
      filter_eq_nil_of_dget_none hnone]
    simp
  · intro d sw hdp hsw
    rw [new_connection_switches ctl event d sw hdp hsw, dget_dset_self]

/-- Witness for C6 at the claim's scenario: two new-connection events for
the id `("10.0.0.1", 6633)` with distinct Connection objects leave the
registry referring to the second object. -/
theorem new_connection_replaces_witness :
    dget (new_connection (new_connection initialController
          { name := "kyco/core.connection.new", connection := connA })
          { name := "kyco/core.connection.new", connection := connB }).connections
        ("10.0.0.1", 6633)
      = some connB := by
  have h := new_connection_replaces
    (new_connection initialController
      { name := "kyco/core.connection.new", connection := connA })
    { name := "kyco/core.connection.new", connection := connB } (by decide)
  exact h.1

/-! ## Claim C9: unload then load of a napp

The key fact proved below is that the listener-removal loop of
`unload_napp` is a two-sided inverse of the registration loop of
`load_napp` — provided the napp's patterns are distinct (they come from a
Python dict), no listener of the napp is already registered under the same
pattern, and the pre-load table maps no pattern of the napp to an empty
list.  Without the freshness proviso the claim is false, because removal
takes the *first* occurrence of a listener: see the counterexample. -/

theorem listRemove_append (old ls : List Nat) (l : Nat) (h : l ∉ old) :
    listRemove (old ++ l :: ls) l = some (old ++ ls) := by
  induction old with
  | nil => simp [listRemove]
  | cons x xs ih =>
      have hx : ¬ x = l := by
        intro hh; exact h (by simp [hh])
      simp only [List.cons_append, listRemove, if_neg hx]
      simp [ih (fun hh => h (List.mem_cons_of_mem x hh))]

theorem removeSeq_extend (ls : List Nat) :
    ∀ (X : List (String × List Nat)) (p : String) (old : List Nat),
      (∀ l ∈ ls, l ∉ old) → dget X p = some (old ++ ls) →
      removeSeq X p ls = (dset X p old, none) := by
  induction ls with
  | nil =>
      intro X p old _ hX
      simp only [List.append_nil] at hX
      simp [removeSeq, dset_self_eq hX]
  | cons l ls ih =>
      intro X p old hd hX
      have hrem := listRemove_append old ls l (hd l (List.mem_cons_self l ls))
      simp only [removeSeq, hX, hrem]
      rw [ih (dset X p (old ++ ls)) p old
          (fun x hx => hd x (List.mem_cons_of_mem l hx)) (dget_dset_self _ _ _),
        dset_dset_self]

theorem registerListeners_cons (X : List (String × List Nat)) (q : String)
    (ms : List Nat) (rest : List (String × List Nat)) :
    registerListeners X ((q, ms) :: rest) =
      registerListeners (dset X q ((dget X q).getD [] ++ ms)) rest := by
  cases hq : dget X q with
  | none => simp [registerListeners, hq, dset_dset_self]
  | some v => simp [registerListeners, hq]

theorem dget_registerListeners (L : List (String × List Nat)) :
    ∀ (X : List (String × List Nat)) (p : String), p ∉ L.map Prod.fst →
      dget (registerListeners X L) p = dget X p := by
  induction L with
  | nil => intro X p _; rfl
  | cons qm rest ih =>
      intro X p hp
      obtain ⟨q, ms⟩ := qm
      simp only [List.map_cons, List.mem_cons, not_or] at hp
      rw [registerListeners_cons, ih _ p hp.2, dget_dset_ne _ _ (Ne.symm hp.1)]

theorem dset_registerListeners (L : List (String × List Nat)) :
    ∀ (X : List (String × List Nat)) (p : String) (v : List Nat),
      p ∉ L.map Prod.fst → (dget X p).isSome →
      dset (registerListeners X L) p v = registerListeners (dset X p v) L := by
  induction L with
  | nil => intro X p v _ _; rfl
  | cons qm rest ih =>
      intro X p v hp hX
      obtain ⟨q, ms⟩ := qm
      simp only [List.map_cons, List.mem_cons, not_or] at hp
      rw [registerListeners_cons, registerListeners_cons,
        ih _ p v hp.2 (dget_isSome_dset _ _ _ _ hX),
        dget_dset_ne _ _ hp.1, dset_comm _ _ hp.1 hX]

theorem dpop_registerListeners (L : List (String × List Nat)) :
    ∀ (X : List (String × List Nat)) (p : String),
      p ∉ L.map Prod.fst → (dget X p).isSome →
      dpop (registerListeners X L) p = registerListeners (dpop X p) L := by
  induction L with
  | nil => intro X p _ _; rfl
  | cons qm rest ih =>
      intro X p hp hX
      obtain ⟨q, ms⟩ := qm
      simp only [List.map_cons, List.mem_cons, not_or] at hp
      rw [registerListeners_cons, registerListeners_cons,
        ih _ p hp.2 (dget_isSome_dset _ _ _ _ hX),
        dpop_dset_ne _ hp.1 hX, dget_dpop_ne _ hp.1]

theorem removeNapp_registerListeners (L : List (String × List Nat)) :
    ∀ (T : List (String × List Nat)),
      (L.map Prod.fst).Nodup →
      (∀ pl ∈ L, ∀ l ∈ pl.2, l ∉ (dget T pl.1).getD []) →
      (∀ pl ∈ L, dget T pl.1 ≠ some []) →
      removeNappListeners (registerListeners T L) L = (T, none) := by
  induction L with
  | nil => intro T _ _ _; rfl
  | cons pls rest ih =>
      intro T hkeys hfresh hne
      obtain ⟨p, ls⟩ := pls
      simp only [List.map_cons, List.nodup_cons] at hkeys
      have hrest : ∀ pl ∈ rest, ∀ l ∈ pl.2, l ∉ (dget T pl.1).getD [] :=
        fun pl hpl => hfresh pl (List.mem_cons_of_mem _ hpl)
      have hnerest : ∀ pl ∈ rest, dget T pl.1 ≠ some [] :=
        fun pl hpl => hne pl (List.mem_cons_of_mem _ hpl)
      have hfreshp : ∀ l ∈ ls, l ∉ (dget T p).getD [] :=
        fun l hl => hfresh (p, ls) (List.mem_cons_self _ _) l hl
      rw [registerListeners_cons]
      have hgetreg : dget (registerListeners
          (dset T p ((dget T p).getD [] ++ ls)) rest) p
          = some ((dget T p).getD [] ++ ls) := by
        rw [dget_registerListeners rest _ p hkeys.1, dget_dset_self]
      have hstep := removeSeq_extend ls _ p ((dget T p).getD []) hfreshp hgetreg
      simp only [removeNappListeners, hstep, dget_dset_self]
      cases hTp : dget T p with
      | some v =>
          have hv : v ≠ [] := by
            intro hh
            exact hne (p, ls) (List.mem_cons_self _ _) (by rw [hTp, hh])
          simp only [Option.getD_some]
          rw [if_neg (by simpa using hv)]
          rw [dset_registerListeners rest _ p v hkeys.1 (by simp),
            dset_dset_self, dset_self_eq hTp]
          exact ih T hkeys.2 hrest hnerest
      | none =>
          simp only [Option.getD_none, List.nil_append]
          rw [if_pos (show ([] : List Nat).length = 0 from rfl)]
          rw [dset_registerListeners rest _ p [] hkeys.1 (by simp),
            dset_dset_self, dset_absent _ hTp]
          rw [dpop_registerListeners rest _ p hkeys.1
              (by rw [← dset_absent _ hTp, dget_dset_self]; rfl),
            dpop_absent_append _ hTp]
          exact ih T hkeys.2 hrest hnerest

theorem load_napp_ok_eq (st : Controller) (n : String) (napp : NApp) :
    (load_napp st n (Except.ok napp)).1 =
      { st with
        napps := dset st.napps n napp
        events_listeners := registerListeners st.events_listeners napp.listeners } := by
  cases h : napp.startFails <;> simp [load_napp, h]

/-- C9 counterexample: reload is not idempotent on the listener table when
a listener of the napp is already registered under the same pattern by
another party.  With the table mapping `p` to `[1, 2]` and a napp declaring
listener 1 for `p`: after the first load the entry is `[1, 2, 1]`; unload
removes the *first* occurrence of 1, leaving `[2, 1]`; the reload appends,
giving `[2, 1, 1]` — a different table (and a different delivery order)
from the state after the first load. -/
theorem reload_restores_counterexample :
    (load_napp (unload_napp
          (load_napp preloadedController "author/napp" (Except.ok sharedListenerNapp)).1
          "author/napp").1
        "author/napp" (Except.ok sharedListenerNapp)).1.events_listeners
      ≠ (load_napp preloadedController "author/napp"
          (Except.ok sharedListenerNapp)).1.events_listeners := by
  decide

/-- C9 (amended): for a napp whose patterns are distinct, none of whose
listeners is already registered under the same pattern, and none of whose
patterns maps to an empty list in the pre-load table, `unload_napp(n)`
followed by `load_napp(n)` leaves the listener table in exactly the state
it had immediately after the first load of `n`; indeed the unload restores
the pre-load table exactly, and both loads register identically. -/
theorem reload_restores_listener_table (st : Controller) (napp_name : String)
    (napp : NApp)
    (hkeys : (napp.listeners.map Prod.fst).Nodup)
    (hfresh : ∀ pl ∈ napp.listeners, ∀ l ∈ pl.2,
        l ∉ (dget st.events_listeners pl.1).getD [])
    (hne : ∀ pl ∈ napp.listeners, dget st.events_listeners pl.1 ≠ some [])
    (hstart : napp.startFails = false) :
    (load_napp st napp_name (Except.ok napp)).2 = none ∧
    (unload_napp (load_napp st napp_name (Except.ok napp)).1 napp_name).2 = none ∧
    (unload_napp (load_napp st napp_name (Except.ok napp)).1
        napp_name).1.events_listeners = st.events_listeners ∧
    (load_napp (unload_napp (load_napp st napp_name (Except.ok napp)).1 napp_name).1
        napp_name (Except.ok napp)).1.events_listeners
      = (load_napp st napp_name (Except.ok napp)).1.events_listeners := by
  have hmain := removeNapp_registerListeners napp.listeners st.events_listeners
    hkeys hfresh hne
  have hunload : unload_napp (load_napp st napp_name (Except.ok napp)).1 napp_name
      = ({ st with
           napps := dpop (dset st.napps napp_name napp) napp_name
           events_listeners := st.events_listeners }, none) := by
    rw [load_napp_ok_eq]
    simp [unload_napp, dget_dset_self, hmain]
  refine ⟨by simp [load_napp, hstart], ?_, ?_, ?_⟩
  · rw [hunload]
  · rw [hunload]
  · rw [hunload, load_napp_ok_eq, load_napp_ok_eq]

/-- Witness for C9 with a napp declaring fresh listeners for two
patterns, loaded into the freshly initialised controller. -/
theorem reload_restores_listener_table_witness :
    (load_napp (unload_napp
          (load_napp initialController "author/napp" (Except.ok demoNapp)).1
          "author/napp").1
        "author/napp" (Except.ok demoNapp)).1.events_listeners
      = (load_napp initialController "author/napp"
          (Except.ok demoNapp)).1.events_listeners :=
  (reload_restores_listener_table initialController "author/napp" demoNapp
    (by decide) (by decide) (by decide) rfl).2.2.2

end Kyco
